import Mathlib

/-!
Verification of the weather-app repository (src/src/App.js) against its
natural-language specification.

Shallow embedding notes.

The app consumes OpenWeather forecast samples.  `buildDaily` in App.js only
reads, from each sample `item`:
  * `item.dt_txt.split(" ")[0]`        -- the calendar-date portion,
  * `new Date(item.dt_txt).getHours()` -- the integer hour of day,
  * `item.main.temp_min`, `item.main.temp_max`,
  * `item.weather[0].icon`, `item.weather[0].main`.
We embed a sample with exactly those projections: `date : Nat` stands for the
calendar-date value (distinct well-formed date strings denote distinct,
order-isomorphic `Date` values, so `Nat` with its order is a faithful model of
both string-key equality in the `Map` and the numeric `Date` comparator used
by `.sort`), `hour : Nat` is what `getHours()` returns, and temperatures are
rationals (`Math.round` on a rational is `round`, i.e. floor of x + 1/2,
matching the JS round-half-up behaviour).

The JS `Map` accumulates, for each date key, the subsequence of input items
carrying that date, in input order: that subsequence is `list.filter`.  The
`Map` iterates keys in first-insertion order, but the code immediately
re-sorts the entries by date value, and the date keys are pairwise distinct
(keys of a `Map`), so the sorted sequence of entries is independent of the
pre-sort order; we therefore take the distinct dates via `dedup` and sort
them with `insertionSort`, which yields the same (unique) sorted sequence as
the JS sort.  Each group is nonempty by construction (a key is only created
when an item is pushed), so the empty-group branch of `summarize` below is
unreachable; it mirrors the fact that `Math.min()` of an empty spread never
happens here.
-/

/-- A 3-hour forecast sample, i.e. the projections of an OpenWeather forecast
list item that App.js actually reads. -/
structure ForecastSample where
  date : Nat
  hour : Nat
  temp_min : ℚ
  temp_max : ℚ
  icon : String
  main : String
deriving Repr, DecidableEq

/-- One entry of the 5-day summary produced by `buildDaily`
(`{ date, min, max, icon, desc }` in App.js). -/
structure DailySummary where
  date : Nat
  min : ℤ
  max : ℤ
  icon : String
  desc : String
deriving Repr, DecidableEq

/-- The distance of the sample hour from noon:
`Math.abs(new Date(i.dt_txt).getHours() - 12)`. -/
def noonDist (i : ForecastSample) : Nat :=
  ((i.hour : ℤ) - 12).natAbs

/-- The fold computing `best` in `buildDaily`: start from `items[0]`, replace
whenever a strictly smaller noon distance is seen (so the first minimiser
wins). -/
def bestSample (i0 : ForecastSample) (rest : List ForecastSample) : ForecastSample :=
  rest.foldl (fun b i => if noonDist i < noonDist b then i else b) i0

/-- Computes `Math.min(...items.map(i => i.main.temp_min))` over the nonempty
group `i0 :: rest`. -/
def groupMin (i0 : ForecastSample) (rest : List ForecastSample) : ℚ :=
  rest.foldl (fun a i => min a i.temp_min) i0.temp_min

/-- Computes `Math.max(...items.map(i => i.main.temp_max))` over the nonempty
group `i0 :: rest`. -/
def groupMax (i0 : ForecastSample) (rest : List ForecastSample) : ℚ :=
  rest.foldl (fun a i => max a i.temp_max) i0.temp_max

/-- Rounding as `Math.round`: round half up, i.e. the floor of `q + 1/2`.  Written over
the numerator and denominator so that the kernel can evaluate it on concrete
rationals; the theorem `jsRound_eq_round` below proves it equal to Mathlib
`round`, which is exactly floor of `q + 1/2`. -/
def jsRound (q : ℚ) : ℤ :=
  (2 * q.num + (q.den : ℤ)) / (2 * (q.den : ℤ))

/-- The body of the `.map` over date groups in `buildDaily`.  The empty-group
branch is unreachable (groups are nonempty by construction). -/
def summarize (date : Nat) (items : List ForecastSample) : DailySummary :=
  match items with
  | [] => { date := date, min := 0, max := 0, icon := "", desc := "" }
  | i0 :: rest =>
    { date := date
      min := jsRound (groupMin i0 rest)
      max := jsRound (groupMax i0 rest)
      icon := (bestSample i0 rest).icon
      desc := (bestSample i0 rest).main }

/-- The function `buildDaily` from App.js: group samples by calendar date, sort the groups
chronologically, summarise each group, keep the first five. -/
def buildDaily (list : List ForecastSample) : List DailySummary :=
  let dates := (list.map (·.date)).dedup
  let sorted := dates.insertionSort (· ≤ ·)
  (sorted.map (fun d => summarize d (list.filter (fun i => i.date == d)))).take 5

/-!
Controller embedding.

`App` keeps React state `query, units, now, days, loading, errorMsg,
lastCity`.  `fetchWeather(city, unit)` is async but single-threaded and, per
the spec, both HTTP calls settle before the state leaves loading, so we model
one call of `fetchWeather` as an atomic step parameterised by the response of
the environment (`FetchResult`): either both endpoint calls succeed, giving
the current-conditions payload and the forecast list, or the attempt fails.
`process.env.REACT_APP_WEATHER_API_KEY` is a module constant; JS truthiness
on it (`if(!API_KEY)`) treats the unset/empty key the same way, so we model
the key as a `String` where `""` means not configured (same for `!city`).
Each step also returns the list of paired fetches (city, unit) it issued on
the network; one element stands for the one `Promise.all` pair of HTTP
requests.
-/

/-- The unit system: "metric" or "imperial" in App.js. -/
inductive UnitSystem where
  | metric
  | imperial
deriving Repr, DecidableEq

/-- Flipping as in `setUnits(prev => prev === "metric" ? "imperial" : "metric")`. -/
def UnitSystem.flip : UnitSystem → UnitSystem
  | .metric => .imperial
  | .imperial => .metric

/-- The current-conditions payload `w.data` stored wholesale into `now`
(only the fields the claims need). -/
structure CurrentW where
  name : String
  temp : ℚ
deriving Repr, DecidableEq

/-- Outcome of the `Promise.all` pair in `fetchWeather`: both requests
succeed (current payload and forecast list), or either fails. -/
inductive FetchResult where
  | success (w : CurrentW) (flist : List ForecastSample)
  | failure
deriving Repr, DecidableEq

/-- The React state of `App`. -/
structure AppState where
  query : String
  units : UnitSystem
  now : Option CurrentW
  days : List DailySummary
  loading : Bool
  errorMsg : String
  lastCity : String
deriving Repr, DecidableEq

/-- The initial state set by the `useState` initialisers. -/
def initState : AppState :=
  { query := "", units := .metric, now := none, days := [], loading := false
    errorMsg := "", lastCity := "" }

/-- The error message of the missing-key branch in `fetchWeather`. -/
def missingKeyMsg : String := "Missing OpenWeather API key in .env.local"

/-- The error message of the `catch` branch in `fetchWeather`. -/
def lookupErrorMsg : String := "City not found. Try another name."

/-- A paired fetch issued on the network: the `q` and `units` params shared
by the two concurrent requests of one `Promise.all`. -/
abbrev FetchCall := String × UnitSystem

/-- A whitespace character in the sense of the JS `String.prototype.trim`
(ASCII whitespace; the queries of interest are ASCII). -/
def isWsChar (c : Char) : Bool :=
  c = ' ' || c = '\t' || c = '\n' || c = '\r' || c = '\x0b' || c = '\x0c'

/-- Trimming as `query.trim()`: strip leading and trailing whitespace. -/
def jsTrim (s : String) : String :=
  String.mk (((s.data.dropWhile isWsChar).reverse.dropWhile isWsChar).reverse)

/-- The function `fetchWeather(city, unit)` from App.js, as an atomic step: returns the
updated state and the paired fetches issued.  Mirrors the source order: the
key check precedes the empty-city check; loading is set, the error message
cleared, then the response is applied (success stores `w`, `buildDaily` of
the list, and the city; failure clears `now`/`days` and sets the lookup
error); `finally` clears loading. -/
def fetchWeather (key city : String) (unit : UnitSystem) (resp : FetchResult)
    (s : AppState) : AppState × List FetchCall :=
  if key = "" then ({ s with errorMsg := missingKeyMsg }, [])
  else if city = "" then (s, [])
  else
    match resp with
    | .success w flist =>
      ({ s with loading := false, errorMsg := ""
                now := some w, days := buildDaily flist, lastCity := city },
       [(city, unit)])
    | .failure =>
      ({ s with loading := false, errorMsg := lookupErrorMsg
                now := none, days := [] },
       [(city, unit)])

/-- Submitting the form: `fetchWeather(query.trim(), units)`. -/
def onSubmit (key : String) (resp : FetchResult) (s : AppState) :
    AppState × List FetchCall :=
  fetchWeather key (jsTrim s.query) s.units resp s

/-- The unit toggle: `setUnits` flips the unit system, then the
`useEffect([units])` hook runs `if(lastCity) fetchWeather(lastCity, units)`
with the new units and the unchanged `lastCity`. -/
def toggleUnits (key : String) (resp : FetchResult) (s : AppState) :
    AppState × List FetchCall :=
  let s1 := { s with units := s.units.flip }
  if s1.lastCity = "" then (s1, [])
  else fetchWeather key s1.lastCity s1.units resp s1

/-- Editing the controlled input: `setQuery`. -/
def setQuery (q : String) (s : AppState) : AppState :=
  { s with query := q }

/-- The states the controller can reach from the initial render, for a fixed
configured key.  The mount-time `useEffect([units])` run is a no-op
(`lastCity` is `""` initially), so `init` needs no fetch. -/
inductive Reachable (key : String) : AppState → Prop where
  | init : Reachable key initState
  | edit (q : String) {s : AppState} :
      Reachable key s → Reachable key (setQuery q s)
  | submit (resp : FetchResult) {s : AppState} :
      Reachable key s → Reachable key (onSubmit key resp s).1
  | toggle (resp : FetchResult) {s : AppState} :
      Reachable key s → Reachable key (toggleUnits key resp s).1


/-!
Concrete sample data used by the witness theorems below (the temperatures
are written with `Rat.divInt` so that the kernel can evaluate them):
`wA1, wA2, wA3` share one calendar date with `temp_min` values
10.4, 9.6, 11.0 and hours 09:00, 12:00, 15:00; `wB1, wB2` share another
date with hours 10:00 and 14:00, both two hours from noon.
-/

def wA1 : ForecastSample :=
  { date := 1, hour := 9, temp_min := Rat.divInt 52 5, temp_max := Rat.divInt 121 10,
    icon := "01d", main := "Clear" }

def wA2 : ForecastSample :=
  { date := 1, hour := 12, temp_min := Rat.divInt 48 5, temp_max := Rat.divInt 68 5,
    icon := "02d", main := "Clouds" }

def wA3 : ForecastSample :=
  { date := 1, hour := 15, temp_min := 11, temp_max := Rat.divInt 129 10,
    icon := "10d", main := "Rain" }

def wEntryA : DailySummary :=
  { date := 1, min := 10, max := 14, icon := "02d", desc := "Clouds" }

def wB1 : ForecastSample :=
  { date := 3, hour := 10, temp_min := 5, temp_max := 7, icon := "04d", main := "Clouds" }

def wB2 : ForecastSample :=
  { date := 3, hour := 14, temp_min := 4, temp_max := 8, icon := "09d", main := "Drizzle" }

def wEntryB : DailySummary :=
  { date := 3, min := 4, max := 8, icon := "04d", desc := "Clouds" }

/-- A current-conditions payload used in concrete controller runs. -/
def wPayload : CurrentW := { name := "Paris", temp := 20 }

/-- The state after a successful submit for "Paris" whose forecast response
carries an empty sample list: `now` is populated while `days` is empty. -/
def pairingBroken : AppState :=
  (onSubmit "k" (FetchResult.success wPayload []) (setQuery "Paris" initState)).1

/-- The state after a successful submit for "Paris" with a nonempty
forecast response: both `now` and `days` populated, `lastCity = "Paris"`. -/
def parisState : AppState :=
  (onSubmit "k" (FetchResult.success wPayload [wA1, wA2, wA3])
    (setQuery "Paris" initState)).1

/-! Helper lemmas about `buildDaily`. -/

theorem summarize_date (d : Nat) (items : List ForecastSample) :
    (summarize d items).date = d := by
  cases items <;> rfl

/-- The sorted distinct dates of `buildDaily` are strictly increasing. -/
theorem sortedDates_pairwise_lt (l : List ForecastSample) :
    (((l.map (·.date)).dedup).insertionSort (· ≤ ·)).Pairwise (· < ·) := by
  have hnd : (((l.map (·.date)).dedup).insertionSort (· ≤ ·)).Nodup :=
    (List.perm_insertionSort _ _).nodup_iff.mpr (List.nodup_dedup _)
  have hs : (((l.map (·.date)).dedup).insertionSort (· ≤ ·)).Sorted (· ≤ ·) :=
    List.sorted_insertionSort _ _
  exact (hs.and hnd).imp fun h => lt_of_le_of_ne h.1 h.2

/-- Claim C1: for every input list of forecast samples, `buildDaily` returns
at most 5 entries and their dates are strictly increasing (one entry per
calendar date, sorted chronologically). -/
theorem buildDaily_length_le_five_and_strictMono (l : List ForecastSample) :
    (buildDaily l).length ≤ 5 ∧
      (buildDaily l).Pairwise (fun a b => a.date < b.date) := by
  constructor
  · simp [buildDaily, List.length_take]
  · unfold buildDaily
    refine List.Pairwise.sublist (List.take_sublist 5 _) ?_
    refine List.pairwise_map.mpr ?_
    refine (sortedDates_pairwise_lt l).imp ?_
    intro a b h
    simpa [summarize_date] using h

/-- Claim C9: `buildDaily` has no error case: the empty sample list yields
the empty daily-summary list. -/
theorem buildDaily_nil : buildDaily [] = [] := rfl

/-- The function `jsRound` is rounding to the nearest integer, half up:
the floor of `q + 1/2`, i.e. Mathlib `round` on the rationals. -/
theorem jsRound_eq_round (q : ℚ) : jsRound q = round q := by
  have hd0 : (q.den : ℚ) ≠ 0 := Nat.cast_ne_zero.mpr q.den_pos.ne'
  have hnum : (q.num : ℚ) = q * (q.den : ℚ) := (div_eq_iff hd0).mp (Rat.num_div_den q)
  have hden2 : ((2 * q.den : ℕ) : ℚ) ≠ 0 :=
    Nat.cast_ne_zero.mpr (Nat.mul_ne_zero two_ne_zero q.den_pos.ne')
  rw [round_eq]
  have hq : q + 1/2 = ((2 * q.num + (q.den : ℤ) : ℤ) : ℚ) / ((2 * q.den : ℕ) : ℚ) := by
    rw [eq_div_iff hden2]
    push_cast
    linear_combination (-2 : ℚ) * hnum
  rw [hq, Rat.floor_intCast_div_natCast]
  unfold jsRound
  push_cast
  rfl

/-- The fold `groupMin` computes the `List.minimum` of the nonempty list. -/
theorem minimum_cons_foldl (x : ℚ) (xs : List ℚ) :
    (x :: xs).minimum = some (xs.foldl min x) := by
  induction xs generalizing x with
  | nil => simp; rfl
  | cons y ys ih =>
    calc (x :: y :: ys).minimum = min ↑x (min ↑y ys.minimum) := by
          rw [List.minimum_cons, List.minimum_cons]
    _ = min (↑(min x y)) ys.minimum := by rw [WithTop.coe_min, min_assoc]
    _ = ((min x y) :: ys).minimum := (List.minimum_cons _ _).symm
    _ = some (ys.foldl min (min x y)) := ih (min x y)
    _ = some ((y :: ys).foldl min x) := rfl

/-- The fold `groupMax` computes the `List.maximum` of the nonempty list. -/
theorem maximum_cons_foldl (x : ℚ) (xs : List ℚ) :
    (x :: xs).maximum = some (xs.foldl max x) := by
  induction xs generalizing x with
  | nil => simp; rfl
  | cons y ys ih =>
    calc (x :: y :: ys).maximum = max ↑x (max ↑y ys.maximum) := by
          rw [List.maximum_cons, List.maximum_cons]
    _ = max (↑(max x y)) ys.maximum := by rw [WithBot.coe_max, max_assoc]
    _ = ((max x y) :: ys).maximum := (List.maximum_cons _ _).symm
    _ = some (ys.foldl max (max x y)) := ih (max x y)
    _ = some ((y :: ys).foldl max x) := rfl

theorem map_temp_min_minimum (i0 : ForecastSample) (rest : List ForecastSample) :
    ((i0 :: rest).map (·.temp_min)).minimum = some (groupMin i0 rest) := by
  rw [List.map_cons, minimum_cons_foldl, List.foldl_map]
  rfl

theorem map_temp_max_maximum (i0 : ForecastSample) (rest : List ForecastSample) :
    ((i0 :: rest).map (·.temp_max)).maximum = some (groupMax i0 rest) := by
  rw [List.map_cons, maximum_cons_foldl, List.foldl_map]
  rfl

/-- Every entry of `buildDaily l` is `summarize` of its (nonempty) calendar
date group, the filter of `l` by the entry date. -/
theorem mem_buildDaily (l : List ForecastSample) (e : DailySummary)
    (he : e ∈ buildDaily l) :
    ∃ i0 rest, l.filter (fun i => i.date == e.date) = i0 :: rest ∧
      e = summarize e.date (i0 :: rest) := by
  unfold buildDaily at he
  have he2 := List.mem_of_mem_take he
  obtain ⟨d, hd, hde⟩ := List.mem_map.mp he2
  have hdl : d ∈ l.map (·.date) := by
    have : d ∈ (l.map (·.date)).dedup :=
      (List.perm_insertionSort (· ≤ ·) _).mem_iff.mp hd
    exact (List.mem_dedup).mp this
  obtain ⟨i, hi, hidate⟩ := List.mem_map.mp hdl
  have hed : e.date = d := by rw [← hde, summarize_date]
  have hne : l.filter (fun i => i.date == d) ≠ [] := by
    intro hnil
    have : i ∈ l.filter (fun i => i.date == d) :=
      List.mem_filter.mpr ⟨hi, by simp [hidate]⟩
    rw [hnil] at this
    exact List.not_mem_nil i this
  obtain ⟨i0, rest, hsplit⟩ : ∃ i0 rest, l.filter (fun i => i.date == d) = i0 :: rest := by
    cases hfil : l.filter (fun i => i.date == d) with
    | nil => exact absurd hfil hne
    | cons a as => exact ⟨a, as, rfl⟩
  refine ⟨i0, rest, ?_, ?_⟩
  · rw [hed]; exact hsplit
  · rw [hed, ← hsplit, ← hde]

/-- Claim C2: for every input list and every calendar-date group within it,
the `buildDaily` entry for that date has `min` equal to the minimum of the
`temp_min` values over the group rounded to the nearest integer, and `max`
equal to the maximum of the `temp_max` values over the group rounded to the
nearest integer. -/
theorem buildDaily_min_max_rounded (l : List ForecastSample) (e : DailySummary)
    (he : e ∈ buildDaily l) :
    ∃ qmin qmax : ℚ,
      ((l.filter (fun i => i.date == e.date)).map (·.temp_min)).minimum = some qmin ∧
      ((l.filter (fun i => i.date == e.date)).map (·.temp_max)).maximum = some qmax ∧
      e.min = round qmin ∧ e.max = round qmax := by
  obtain ⟨i0, rest, hg, hee⟩ := mem_buildDaily l e he
  refine ⟨groupMin i0 rest, groupMax i0 rest, ?_, ?_, ?_, ?_⟩
  · rw [hg]; exact map_temp_min_minimum i0 rest
  · rw [hg]; exact map_temp_max_maximum i0 rest
  · rw [hee]; exact jsRound_eq_round (groupMin i0 rest)
  · rw [hee]; exact jsRound_eq_round (groupMax i0 rest)

/-- The specification notion of representative sample: the first sample of
the group whose time-of-day distance to noon is least among the group (ties
resolved in favour of the first-encountered sample). -/
def specRepresentative (g : List ForecastSample) : Option ForecastSample :=
  g.find? (fun i => decide (∀ j ∈ g, noonDist i ≤ noonDist j))

/-- The fold `bestSample` attains the least noon distance of the group. -/
theorem bestSample_le (i0 : ForecastSample) (rest : List ForecastSample) :
    ∀ j ∈ i0 :: rest, noonDist (bestSample i0 rest) ≤ noonDist j := by
  induction rest generalizing i0 with
  | nil =>
    intro j hj
    rw [List.mem_singleton] at hj
    subst hj
    exact le_refl _
  | cons y ys ih =>
    intro j hj
    have hstep : bestSample i0 (y :: ys) =
        bestSample (if noonDist y < noonDist i0 then y else i0) ys := rfl
    set b1 := if noonDist y < noonDist i0 then y else i0 with hb1
    have hb1i0 : noonDist b1 ≤ noonDist i0 := by
      rw [hb1]; split <;> omega
    have hb1y : noonDist b1 ≤ noonDist y := by
      rw [hb1]; split <;> omega
    have hself := ih b1 b1 (List.mem_cons_self b1 ys)
    rcases List.mem_cons.mp hj with h | hj2
    · subst h; rw [hstep]; exact le_trans hself hb1i0
    · rcases List.mem_cons.mp hj2 with h | hj3
      · subst h; rw [hstep]; exact le_trans hself hb1y
      · rw [hstep]; exact ih b1 j (List.mem_cons_of_mem b1 hj3)

/-- The fold `bestSample` is positioned after strictly larger noon distances
only: it is the first minimiser of the group. -/
theorem bestSample_split (i0 : ForecastSample) (rest : List ForecastSample) :
    ∃ pre post, i0 :: rest = pre ++ (bestSample i0 rest) :: post ∧
      ∀ x ∈ pre, noonDist (bestSample i0 rest) < noonDist x := by
  induction rest generalizing i0 with
  | nil => exact ⟨[], [], rfl, by intro x hx; exact absurd hx (List.not_mem_nil x)⟩
  | cons y ys ih =>
    have hstep : bestSample i0 (y :: ys) =
        bestSample (if noonDist y < noonDist i0 then y else i0) ys := rfl
    by_cases h : noonDist y < noonDist i0
    · have hb1 : bestSample i0 (y :: ys) = bestSample y ys := by rw [hstep, if_pos h]
      obtain ⟨pre, post, hsplit, hlt⟩ := ih y
      refine ⟨i0 :: pre, post, ?_, ?_⟩
      · rw [hb1, List.cons_append, ← hsplit]
      · intro x hx
        rcases List.mem_cons.mp hx with hxi | hxp
        · subst hxi
          rw [hb1]
          have := bestSample_le y ys y (List.mem_cons_self y ys)
          omega
        · rw [hb1]; exact hlt x hxp
    · have hb1 : bestSample i0 (y :: ys) = bestSample i0 ys := by rw [hstep, if_neg h]
      obtain ⟨pre, post, hsplit, hlt⟩ := ih i0
      cases pre with
      | nil =>
        have hB : bestSample i0 ys = i0 := by
          have := congrArg (fun l => l.head?) hsplit
          simpa using this.symm
        refine ⟨[], y :: ys, ?_, ?_⟩
        · rw [hb1, hB]; rfl
        · intro x hx; exact absurd hx (List.not_mem_nil x)
      | cons p ps =>
        rw [List.cons_append] at hsplit
        injection hsplit with h1 h2
        have hBi0 : noonDist (bestSample i0 ys) < noonDist i0 := by
          have := hlt p (List.mem_cons_self p ps)
          rw [← h1] at this
          exact this
        refine ⟨i0 :: y :: ps, post, ?_, ?_⟩
        · rw [hb1, List.cons_append, List.cons_append, ← h2]
        · intro x hx
          rw [hb1]
          rcases List.mem_cons.mp hx with hxi | hx2
          · subst hxi; exact hBi0
          · rcases List.mem_cons.mp hx2 with hxy | hxp
            · subst hxy; omega
            · exact hlt x (List.mem_cons_of_mem p hxp)

/-- Running `find?` on a split list whose prefix fails the predicate returns the
split point when it satisfies it. -/
theorem find?_append_of_prefix_false {α : Type} (p : α → Bool) (pre : List α)
    (b : α) (post : List α) (hpre : ∀ x ∈ pre, p x = false) (hb : p b = true) :
    (pre ++ b :: post).find? p = some b := by
  induction pre with
  | nil => simp [List.find?_cons, hb]
  | cons a as ih =>
    have ha : p a = false := hpre a (List.mem_cons_self a as)
    rw [List.cons_append, List.find?_cons, ha]
    exact ih fun x hx => hpre x (List.mem_cons_of_mem a hx)

/-- On a nonempty group the fold of `buildDaily` selects exactly the
specification representative: the first sample closest to noon. -/
theorem specRepresentative_cons (i0 : ForecastSample) (rest : List ForecastSample) :
    specRepresentative (i0 :: rest) = some (bestSample i0 rest) := by
  obtain ⟨pre, post, hsplit, hlt⟩ := bestSample_split i0 rest
  have hmemB : bestSample i0 rest ∈ i0 :: rest := by
    rw [hsplit]
    exact List.mem_append_right pre (List.mem_cons_self _ post)
  unfold specRepresentative
  rw [hsplit]
  refine find?_append_of_prefix_false _ pre _ post ?_ ?_
  · intro x hx
    refine decide_eq_false ?_
    intro hall
    have h1 := hall (bestSample i0 rest)
      (List.mem_append_right pre (List.mem_cons_self _ post))
    have h2 := hlt x hx
    omega
  · refine decide_eq_true ?_
    intro j hj
    rw [← hsplit] at hj
    exact bestSample_le i0 rest j hj

/-- Claim C3: for every date group, the icon and condition label in the
`buildDaily` output come from the group sample whose time-of-day is closest
to noon (absolute difference of the hour from 12), ties resolved in favour
of the first-encountered sample in input order. -/
theorem buildDaily_icon_from_noon_representative (l : List ForecastSample)
    (e : DailySummary) (he : e ∈ buildDaily l) :
    ∃ b, specRepresentative (l.filter (fun i => i.date == e.date)) = some b ∧
      e.icon = b.icon ∧ e.desc = b.main := by
  obtain ⟨i0, rest, hg, hee⟩ := mem_buildDaily l e he
  refine ⟨bestSample i0 rest, ?_, ?_, ?_⟩
  · rw [hg]; exact specRepresentative_cons i0 rest
  · rw [hee]; rfl
  · rw [hee]; rfl

/-- Witness for claim C2 at a concrete input: three samples of one date with
minTemp values 10.4, 9.6, 11.0 (and maxTemp values 12.1, 13.6, 12.9): the
output entry carries round 9.6 = 10 and round 13.6 = 14. -/
theorem buildDaily_min_max_rounded_witness :
    wEntryA ∈ buildDaily [wA1, wA2, wA3] ∧
    (∃ qmin qmax : ℚ,
      (([wA1, wA2, wA3].filter (fun i => i.date == wEntryA.date)).map (·.temp_min)).minimum
          = some qmin ∧
      (([wA1, wA2, wA3].filter (fun i => i.date == wEntryA.date)).map (·.temp_max)).maximum
          = some qmax ∧
      wEntryA.min = round qmin ∧ wEntryA.max = round qmax) :=
  ⟨by decide, buildDaily_min_max_rounded [wA1, wA2, wA3] wEntryA (by decide)⟩

/-- Witness for claim C3 at a concrete input: two samples of one date at
10:00 and 14:00, both two hours from noon; the first-listed sample supplies
the icon and condition label. -/
theorem buildDaily_icon_from_noon_representative_witness :
    wEntryB ∈ buildDaily [wB1, wB2] ∧
    (∃ b, specRepresentative ([wB1, wB2].filter (fun i => i.date == wEntryB.date)) = some b ∧
      wEntryB.icon = b.icon ∧ wEntryB.desc = b.main) :=
  ⟨by decide, buildDaily_icon_from_noon_representative [wB1, wB2] wEntryB (by decide)⟩

/-- Any single `fetchWeather` call either leaves `now` and `days` both
unchanged (short-circuit branches), or sets both from the successful
response, or clears both on failure. -/
theorem fetchWeather_now_days_cases (key city : String) (unit : UnitSystem)
    (resp : FetchResult) (s : AppState) :
    ((fetchWeather key city unit resp s).1.now = s.now ∧
     (fetchWeather key city unit resp s).1.days = s.days) ∨
    (∃ w fl, resp = FetchResult.success w fl ∧
     (fetchWeather key city unit resp s).1.now = some w ∧
     (fetchWeather key city unit resp s).1.days = buildDaily fl) ∨
    (resp = FetchResult.failure ∧
     (fetchWeather key city unit resp s).1.now = none ∧
     (fetchWeather key city unit resp s).1.days = []) := by
  cases resp with
  | success w fl =>
    by_cases hk : key = ""
    · exact Or.inl (by simp [fetchWeather, hk])
    · by_cases hc : city = ""
      · exact Or.inl (by simp [fetchWeather, hk, hc])
      · exact Or.inr (Or.inl ⟨w, fl, rfl, by simp [fetchWeather, hk, hc],
          by simp [fetchWeather, hk, hc]⟩)
  | failure =>
    by_cases hk : key = ""
    · exact Or.inl (by simp [fetchWeather, hk])
    · by_cases hc : city = ""
      · exact Or.inl (by simp [fetchWeather, hk, hc])
      · exact Or.inr (Or.inr ⟨rfl, by simp [fetchWeather, hk, hc],
          by simp [fetchWeather, hk, hc]⟩)

/-- Invariant: in every reachable state, a nonempty daily list implies
populated current conditions. -/
theorem reachable_days_nonempty_now (key : String) (s : AppState)
    (h : Reachable key s) : s.days ≠ [] → s.now ≠ none := by
  induction h with
  | init => intro hd; exact absurd rfl hd
  | edit q h ih => exact ih
  | submit resp h ih =>
    rename_i s'
    show (fetchWeather key (jsTrim s'.query) s'.units resp s').1.days ≠ [] →
      (fetchWeather key (jsTrim s'.query) s'.units resp s').1.now ≠ none
    rcases fetchWeather_now_days_cases key (jsTrim s'.query) s'.units resp s' with
      ⟨hn, hd⟩ | ⟨w, fl, _, hn, hd⟩ | ⟨_, hn, hd⟩
    · rw [hn, hd]; exact ih
    · rw [hn]; intro _; simp
    · rw [hd]; intro hc; exact absurd rfl hc
  | toggle resp h ih =>
    rename_i s'
    by_cases hlc : s'.lastCity = ""
    · show (toggleUnits key resp s').1.days ≠ [] → (toggleUnits key resp s').1.now ≠ none
      simp only [toggleUnits, hlc, if_pos]
      exact ih
    · have hstep : (toggleUnits key resp s').1 =
          (fetchWeather key s'.lastCity s'.units.flip resp
            { s' with units := s'.units.flip }).1 := by
        simp [toggleUnits, hlc]
      rw [hstep]
      rcases fetchWeather_now_days_cases key s'.lastCity s'.units.flip resp
          { s' with units := s'.units.flip } with
        ⟨hn, hd⟩ | ⟨w, fl, _, hn, hd⟩ | ⟨_, hn, hd⟩
      · rw [hn, hd]; exact ih
      · rw [hn]; intro _; simp
      · rw [hd]; intro hc; exact absurd rfl hc

/-- Counterexample to claim C4 as stated: a reachable state in which the
current conditions are populated but the daily-summary list is empty — a
successful fetch whose forecast response has no samples populates `now` yet
leaves `days` empty, so "both absent or both populated" fails. -/
theorem now_days_pairing_counterexample :
    Reachable "k" pairingBroken ∧
    ¬((pairingBroken.now = none ∧ pairingBroken.days = []) ∨
      (pairingBroken.now ≠ none ∧ pairingBroken.days ≠ [])) :=
  ⟨Reachable.submit _ (Reachable.edit "Paris" Reachable.init), by decide⟩

/-- Claim C4, amended: in every reachable state, a nonempty daily list
implies populated current conditions (both can only be nonempty together;
a successful response with an empty forecast list populates `now` while
leaving `days` empty), and every fetch updates the pair together: it leaves
both unchanged (short-circuit), stores both from a successful response, or
clears both on error. -/
theorem now_days_refreshed_together (key city : String) (unit : UnitSystem)
    (resp : FetchResult) (s : AppState) (h : Reachable key s) :
    (s.days ≠ [] → s.now ≠ none) ∧
    (((fetchWeather key city unit resp s).1.now = s.now ∧
      (fetchWeather key city unit resp s).1.days = s.days) ∨
     (∃ w fl, resp = FetchResult.success w fl ∧
      (fetchWeather key city unit resp s).1.now = some w ∧
      (fetchWeather key city unit resp s).1.days = buildDaily fl) ∨
     (resp = FetchResult.failure ∧
      (fetchWeather key city unit resp s).1.now = none ∧
      (fetchWeather key city unit resp s).1.days = [])) :=
  ⟨reachable_days_nonempty_now key s h,
   fetchWeather_now_days_cases key city unit resp s⟩

/-- Witness for the amended claim C4 at the initial state with a failing
fetch for "Paris". -/
theorem now_days_refreshed_together_witness :
    Reachable "k" initState ∧
    ((initState.days ≠ [] → initState.now ≠ none) ∧
     (((fetchWeather "k" "Paris" UnitSystem.metric FetchResult.failure initState).1.now
          = initState.now ∧
       (fetchWeather "k" "Paris" UnitSystem.metric FetchResult.failure initState).1.days
          = initState.days) ∨
      (∃ w fl, FetchResult.failure = FetchResult.success w fl ∧
       (fetchWeather "k" "Paris" UnitSystem.metric FetchResult.failure initState).1.now
          = some w ∧
       (fetchWeather "k" "Paris" UnitSystem.metric FetchResult.failure initState).1.days
          = buildDaily fl) ∨
      (FetchResult.failure = FetchResult.failure ∧
       (fetchWeather "k" "Paris" UnitSystem.metric FetchResult.failure initState).1.now
          = none ∧
       (fetchWeather "k" "Paris" UnitSystem.metric FetchResult.failure initState).1.days
          = []))) :=
  ⟨Reachable.init,
   now_days_refreshed_together "k" "Paris" UnitSystem.metric FetchResult.failure
     initState Reachable.init⟩

/-- Counterexample to claim C5 as stated: the error message of a submit with
no API key configured is "Missing OpenWeather API key in .env.local", not
"missing API key configuration". -/
theorem missing_key_message_counterexample :
    (onSubmit "" FetchResult.failure (setQuery "Paris" initState)).1.errorMsg ≠
      "missing API key configuration" ∧
    (onSubmit "" FetchResult.failure (setQuery "Paris" initState)).1.errorMsg =
      missingKeyMsg ∧
    (onSubmit "" FetchResult.failure (setQuery "Paris" initState)).2 = [] :=
  ⟨by decide, by decide, by decide⟩

/-- Claim C5, amended: for every submit issued when no API key is configured
the controller transitions to an error state whose (nonempty, user-visible)
message is "Missing OpenWeather API key in .env.local", with zero network
calls; only the error message changes, so the absence of the key is a
detectable error state, not a crash. -/
theorem submit_missing_key_error_no_fetch (key : String) (resp : FetchResult)
    (s : AppState) (hk : key = "") :
    (onSubmit key resp s).1 = { s with errorMsg := missingKeyMsg } ∧
    (onSubmit key resp s).1.errorMsg = missingKeyMsg ∧
    missingKeyMsg ≠ "" ∧
    (onSubmit key resp s).2 = [] := by
  subst hk
  exact ⟨rfl, rfl, by decide, rfl⟩

/-- Witness for the amended claim C5 at the initial state. -/
theorem submit_missing_key_error_no_fetch_witness :
    ("" : String) = "" ∧
    ((onSubmit "" FetchResult.failure initState).1 =
        { initState with errorMsg := missingKeyMsg } ∧
     (onSubmit "" FetchResult.failure initState).1.errorMsg = missingKeyMsg ∧
     missingKeyMsg ≠ "" ∧
     (onSubmit "" FetchResult.failure initState).2 = []) :=
  ⟨rfl, submit_missing_key_error_no_fetch "" FetchResult.failure initState rfl⟩

/-- Claim C6: whenever either of the two fetches fails (a failing attempt
that reached the network), the controller clears the current conditions and
the forecast list — whatever was previously displayed — and sets the
nonempty lookup error message. -/
theorem failing_fetch_clears_and_errors (key city : String) (unit : UnitSystem)
    (s : AppState) (hk : key ≠ "") (hc : city ≠ "") :
    (fetchWeather key city unit FetchResult.failure s).1.now = none ∧
    (fetchWeather key city unit FetchResult.failure s).1.days = [] ∧
    (fetchWeather key city unit FetchResult.failure s).1.errorMsg = lookupErrorMsg ∧
    lookupErrorMsg ≠ "" := by
  refine ⟨?_, ?_, ?_, by decide⟩ <;> simp [fetchWeather, hk, hc]

/-- Witness for claim C6: a failing fetch from a state with populated data
(`parisState`) clears both and sets the message. -/
theorem failing_fetch_clears_and_errors_witness :
    ("k" : String) ≠ "" ∧ ("Nara" : String) ≠ "" ∧
    ((fetchWeather "k" "Nara" UnitSystem.metric FetchResult.failure parisState).1.now
        = none ∧
     (fetchWeather "k" "Nara" UnitSystem.metric FetchResult.failure parisState).1.days
        = [] ∧
     (fetchWeather "k" "Nara" UnitSystem.metric FetchResult.failure parisState).1.errorMsg
        = lookupErrorMsg ∧
     lookupErrorMsg ≠ "") :=
  ⟨by decide, by decide,
   failing_fetch_clears_and_errors "k" "Nara" UnitSystem.metric parisState
     (by decide) (by decide)⟩

/-- Claim C7: a unit toggle flips the unit system; when a city was
previously searched successfully (`lastCity` nonempty — it is set exactly by
successful fetches), it triggers exactly one new paired fetch for that same
city under the new unit system; with no prior successful search
(`lastCity` empty) no network call occurs and only the unit system
changes. -/
theorem unit_toggle_refetch (key : String) (resp : FetchResult) (s : AppState)
    (hk : key ≠ "") :
    (toggleUnits key resp s).1.units = s.units.flip ∧
    (s.lastCity ≠ "" →
      (toggleUnits key resp s).2 = [(s.lastCity, s.units.flip)]) ∧
    (s.lastCity = "" →
      (toggleUnits key resp s).2 = [] ∧
      (toggleUnits key resp s).1 = { s with units := s.units.flip }) := by
  by_cases hlc : s.lastCity = ""
  · refine ⟨?_, fun h => absurd hlc h, fun _ => ⟨?_, ?_⟩⟩ <;> simp [toggleUnits, hlc]
  · refine ⟨?_, fun _ => ?_, fun h => absurd h hlc⟩
    · cases resp <;> simp [toggleUnits, fetchWeather, hlc, hk]
    · cases resp <;> simp [toggleUnits, fetchWeather, hlc, hk]

/-- Witness for claim C7: toggling after the successful "Paris" search
issues exactly one paired fetch for "Paris" under imperial units. -/
theorem unit_toggle_refetch_witness :
    ("k" : String) ≠ "" ∧
    ((toggleUnits "k" FetchResult.failure parisState).1.units
        = parisState.units.flip ∧
     (parisState.lastCity ≠ "" →
       (toggleUnits "k" FetchResult.failure parisState).2
          = [(parisState.lastCity, parisState.units.flip)]) ∧
     (parisState.lastCity = "" →
       (toggleUnits "k" FetchResult.failure parisState).2 = [] ∧
       (toggleUnits "k" FetchResult.failure parisState).1
          = { parisState with units := parisState.units.flip })) :=
  ⟨by decide, unit_toggle_refetch "k" FetchResult.failure parisState (by decide)⟩

/-- Counterexample to claim C8 as stated: submitting the empty query when no
API key is configured does change the state (the key check precedes the
empty-query check, so the missing-key message is written). -/
theorem empty_submit_state_change_counterexample :
    jsTrim initState.query = "" ∧
    (onSubmit "" FetchResult.failure initState).1 ≠ initState :=
  ⟨rfl, by decide⟩

/-- Claim C8, amended: when an API key is configured, a submit whose query
text is empty or whitespace-only changes no field of the state and issues no
network call. -/
theorem empty_query_submit_noop (key : String) (resp : FetchResult)
    (s : AppState) (hk : key ≠ "") (hq : jsTrim s.query = "") :
    onSubmit key resp s = (s, []) := by
  simp [onSubmit, fetchWeather, hk, hq]

/-- Witness for the amended claim C8: a whitespace-only query with a
configured key. -/
theorem empty_query_submit_noop_witness :
    ("k" : String) ≠ "" ∧ jsTrim (setQuery "   " initState).query = "" ∧
    onSubmit "k" FetchResult.failure (setQuery "   " initState)
      = (setQuery "   " initState, []) :=
  ⟨by decide, by decide,
   empty_query_submit_noop "k" FetchResult.failure (setQuery "   " initState)
     (by decide) (by decide)⟩

/-- Claim C10: a failed fetch leaves `lastCity` unchanged (stated for any
failing fetch), so after a successful search for city A followed by a failed
search for city B, `lastCity` still holds A, the error message is set, and a
subsequent unit toggle refetches A (one paired fetch under the flipped unit
system) even though the display is in the error state. -/
theorem failed_fetch_keeps_lastCity (key cityA cityB c : String)
    (uA uB u : UnitSystem) (w : CurrentW) (fl : List ForecastSample)
    (resp : FetchResult) (s t : AppState)
    (hk : key ≠ "") (hA : cityA ≠ "") (hB : cityB ≠ "") :
    (fetchWeather key c u FetchResult.failure t).1.lastCity = t.lastCity ∧
    ((fetchWeather key cityB uB FetchResult.failure
        (fetchWeather key cityA uA (FetchResult.success w fl) s).1).1.lastCity
      = cityA ∧
     (fetchWeather key cityB uB FetchResult.failure
        (fetchWeather key cityA uA (FetchResult.success w fl) s).1).1.errorMsg
      ≠ "" ∧
     (toggleUnits key resp
        (fetchWeather key cityB uB FetchResult.failure
          (fetchWeather key cityA uA (FetchResult.success w fl) s).1).1).2
      = [(cityA, s.units.flip)]) := by
  refine ⟨?_, ?_, ?_, ?_⟩
  · by_cases hc : c = "" <;> simp [fetchWeather, hk, hc]
  · simp [fetchWeather, hk, hA, hB]
  · simp [fetchWeather, hk, hA, hB, lookupErrorMsg]
  · cases resp <;> simp [fetchWeather, toggleUnits, hk, hA, hB]

/-- Witness for claim C10 at concrete cities "Paris" and "Nara" from the
initial state. -/
theorem failed_fetch_keeps_lastCity_witness :
    ("k" : String) ≠ "" ∧ ("Paris" : String) ≠ "" ∧ ("Nara" : String) ≠ "" ∧
    ((fetchWeather "k" "X" UnitSystem.metric FetchResult.failure initState).1.lastCity
        = initState.lastCity ∧
     ((fetchWeather "k" "Nara" UnitSystem.metric FetchResult.failure
         (fetchWeather "k" "Paris" UnitSystem.metric
           (FetchResult.success wPayload []) initState).1).1.lastCity = "Paris" ∧
      (fetchWeather "k" "Nara" UnitSystem.metric FetchResult.failure
         (fetchWeather "k" "Paris" UnitSystem.metric
           (FetchResult.success wPayload []) initState).1).1.errorMsg ≠ "" ∧
      (toggleUnits "k" FetchResult.failure
         (fetchWeather "k" "Nara" UnitSystem.metric FetchResult.failure
           (fetchWeather "k" "Paris" UnitSystem.metric
             (FetchResult.success wPayload []) initState).1).1).2
        = [("Paris", initState.units.flip)])) :=
  ⟨by decide, by decide, by decide,
   failed_fetch_keeps_lastCity "k" "Paris" "Nara" "X" UnitSystem.metric
     UnitSystem.metric UnitSystem.metric wPayload [] FetchResult.failure
     initState initState (by decide) (by decide) (by decide)⟩
